import Mathlib

/-!
Verification of the TEDScan notice pipeline (`src/bot.py`): a shallow
embedding of the field normalizer, the lot/winner matcher
(`TEDDataCollector.match_winners_to_lots`), the currency converter
(`TEDDataCollector.convert_to_eur`) and the filter/aggregator
(`TEDDataCollector.filter_high_value_results`), together with theorems
settling the specification claims about them.
-/

namespace TEDScan

/-- A JSON-like Python value as handled by `bot.py`: `null` is Python `None`,
`num` covers the numeric amounts (int/float, modelled as rationals), `list`
an ordered array, `dict` an insertion-ordered string-keyed mapping. -/
inductive Value : Type where
  | null : Value
  | str : String → Value
  | num : ℚ → Value
  | list : List Value → Value
  | dict : List (String × Value) → Value

/-- Python truthiness of a `Value` (used by `if data[lang]:` and
`if tender_value:` in bot.py). -/
def truthy : Value → Bool
  | Value.null => false
  | Value.str s => if s = "" then false else true
  | Value.num q => if q = 0 then false else true
  | Value.list [] => false
  | Value.list (_ :: _) => true
  | Value.dict [] => false
  | Value.dict (_ :: _) => true

/-- `to_list` from `match_winners_to_lots` (bot.py:259-260):
`None` becomes the empty sequence, a list stays itself, any other value is
wrapped as a one-element sequence. -/
def to_list : Value → List Value
  | Value.null => []
  | Value.list vs => vs
  | v => [v]

/-- Python `d[k]` / `k in d` on an insertion-ordered mapping: the value of the
first entry whose key equals `k`. -/
def dictLookup (d : List (String × Value)) (k : String) : Option Value :=
  (d.find? (fun kv => kv.1 == k)).map (fun kv => kv.2)

/-- `val[0] if isinstance(val, list) else val` (bot.py:268/270): a list is
unwrapped to its first element — `Option.none` models the `IndexError`
raised when the list is empty — and any other value passes through. -/
def unwrapFirst : Value → Option Value
  | Value.list vs => vs.head?
  | v => Option.some v

/-- The `for lang in [...]` loop of `extract_from_dict` (bot.py:265-268):
the first language of `langs` whose entry is present in `d` and truthy. -/
def findLang (d : List (String × Value)) : List String → Option Value
  | [] => Option.none
  | lang :: rest =>
    match dictLookup d lang with
    | Option.some val => if truthy val then Option.some val else findLang d rest
    | Option.none => findLang d rest

/-- Body of `extract_from_dict` (bot.py:262-270), parametrised by the
preferred-language list: a non-mapping is returned unchanged; otherwise the
first present truthy preferred entry is unwrapped; otherwise the mapping's
first value in iteration order is unwrapped (`next(iter(data.values()))`,
which is Python `None` for an empty mapping).  `Option.none` models a raised
`IndexError` from unwrapping an empty list. -/
def extractCore (langs : List String) : Value → Option Value
  | Value.dict d =>
    (match findLang d langs with
     | Option.some val => unwrapFirst val
     | Option.none =>
       match d with
       | [] => Option.some Value.null
       | kv :: _ => unwrapFirst kv.2)
  | v => Option.some v

/-- Preferred languages of the matcher's `extract_from_dict` (bot.py:265). -/
def matcherLangs : List String := ["eng", "swe", "deu", "fra", "spa"]

/-- Preferred languages of the filter's `extract_from_dict` (bot.py:349). -/
def i18nLangs : List String :=
  ["eng", "swe", "deu", "fra", "spa", "ita", "nld", "pol", "ces", "hun"]

/-- `extract_from_dict` as defined inside `match_winners_to_lots`
(bot.py:262-270). -/
def extract_from_dict : Value → Option Value := extractCore matcherLangs

/-- `extract_from_dict` as defined inside `filter_high_value_results`
(bot.py:346-354). -/
def extract_from_dict_i18n : Value → Option Value := extractCore i18nLangs

/-- A raw TED notice: the string-keyed record received from the API. -/
abbrev Notice : Type := List (String × Value)

/-- `notice.get(key, dflt)`: the stored value when the key is present
(which may itself be Python `None`), the default otherwise. -/
def ngetD (notice : Notice) (key : String) (dflt : Value) : Value :=
  ((notice.find? (fun kv => kv.1 == key)).map (fun kv => kv.2)).getD dflt

/-- `notice.get(key)`, whose default is Python `None`. -/
def nget (notice : Notice) (key : String) : Value := ngetD notice key Value.null

/-- `to_list(notice.get("identifier-lot"))` (bot.py:272). -/
def lotIdsOf (notice : Notice) : List Value := to_list (nget notice "identifier-lot")

/-- `to_list(notice.get("estimated-value-lot"))` (bot.py:273). -/
def estValuesOf (notice : Notice) : List Value := to_list (nget notice "estimated-value-lot")

/-- `to_list(notice.get("estimated-value-cur-lot"))` (bot.py:274). -/
def estCursOf (notice : Notice) : List Value := to_list (nget notice "estimated-value-cur-lot")

/-- `to_list(notice.get("winner-country"))` (bot.py:282). -/
def countriesOf (notice : Notice) : List Value := to_list (nget notice "winner-country")

/-- `to_list(notice.get("tender-value"))` (bot.py:290). -/
def tenderValuesOf (notice : Notice) : List Value := to_list (nget notice "tender-value")

/-- `to_list(notice.get("tender-value-cur"))` (bot.py:291). -/
def tenderCursOf (notice : Notice) : List Value := to_list (nget notice "tender-value-cur")

/-- The winner-name / winner-city normalisation (bot.py:276-280, 284-288):
a localized mapping goes through `extract_from_dict` first (which may raise,
hence `Option`), every other shape goes straight to `to_list`. -/
def winnerField (raw : Value) : Option (List Value) :=
  match raw with
  | Value.dict d => (extract_from_dict (Value.dict d)).map to_list
  | v => Option.some (to_list v)

/-- One per-lot record produced by `match_winners_to_lots` (bot.py:318-327). -/
structure Lot : Type where
  lot_id : Value
  estimated_value : Value
  estimated_currency : Value
  tender_value : Value
  tender_currency : Value
  winner_name : Value
  winner_country : Value
  winner_city : Value

/-- `num_lots = max(len(lot_ids), len(tender_values), 1)` (bot.py:293). -/
def numLots (notice : Notice) : ℕ :=
  max (max (lotIdsOf notice).length (tenderValuesOf notice).length) 1

/-- The currency selection at position `i` (bot.py:297-303): the entry at `i`
when in range, the single entry when the sequence has length one, the
`"EUR"` default otherwise. -/
def pickCur (xs : List Value) (i : ℕ) : Value :=
  if i < xs.length then xs.getD i Value.null
  else if xs.length = 1 then xs.getD 0 Value.null
  else Value.str "EUR"

/-- The winner-field selection at position `i` (bot.py:306-316): the entry at
`i` when the sequence length equals `num_lots` (and `i` is in range), the
single entry when the length is one, the `"N/A"` sentinel otherwise. -/
def pickWinner (xs : List Value) (num_lots i : ℕ) : Value :=
  if xs.length = num_lots ∧ i < xs.length then xs.getD i Value.null
  else if xs.length = 1 then xs.getD 0 Value.null
  else Value.str "N/A"

/-- The `lot_data` record built for position `i` of the loop in
`match_winners_to_lots` (bot.py:295-328), given the already-normalised
winner-name and winner-city sequences. -/
def mkLotAt (notice : Notice) (winner_names winner_cities : List Value) (i : ℕ) : Lot :=
  { lot_id :=
      if i < (lotIdsOf notice).length then (lotIdsOf notice).getD i Value.null
      else Value.str (String.append "LOT-" (toString (i + 1))),
    estimated_value :=
      if i < (estValuesOf notice).length then (estValuesOf notice).getD i Value.null
      else Value.null,
    estimated_currency := pickCur (estCursOf notice) i,
    tender_value :=
      if i < (tenderValuesOf notice).length then (tenderValuesOf notice).getD i Value.null
      else Value.null,
    tender_currency := pickCur (tenderCursOf notice) i,
    winner_name := pickWinner winner_names (numLots notice) i,
    winner_country := pickWinner (countriesOf notice) (numLots notice) i,
    winner_city := pickWinner winner_cities (numLots notice) i }

/-- The `for i in range(num_lots)` loop of `match_winners_to_lots`
(bot.py:295-328). -/
def buildLots (notice : Notice) (winner_names winner_cities : List Value) : List Lot :=
  (List.range (numLots notice)).map (mkLotAt notice winner_names winner_cities)

/-- `TEDDataCollector.match_winners_to_lots` (bot.py:255-330).  The result is
`Option.none` exactly when the winner-name or winner-city extraction raises. -/
def match_winners_to_lots (notice : Notice) : Option (List Lot) :=
  (winnerField (nget notice "winner-name")).bind (fun winner_names =>
    (winnerField (nget notice "winner-city")).map (fun winner_cities =>
      buildLots notice winner_names winner_cities))

/-- Model of Python `str.upper()` (ASCII case mapping, as used on the
currency codes in `convert_to_eur`). -/
def pyUpper (s : String) : String := String.mk (s.data.map Char.toUpper)

/-- The static exchange-rate table `self.rates` (bot.py:149-154), EUR per
unit, with the float literals read as exact decimals. -/
def rates : List (String × ℚ) :=
  [("EUR", 1), ("USD", 92 / 100), ("GBP", 117 / 100), ("CHF", 106 / 100),
   ("SEK", 88 / 1000), ("DKK", 134 / 1000), ("NOK", 86 / 1000),
   ("PLN", 23 / 100), ("CZK", 40 / 1000), ("HUF", 25 / 10000),
   ("RON", 20 / 100), ("BGN", 51 / 100), ("HRK", 13 / 100)]

/-- `self.rates.get(code)`: the rate stored for an exact (already
case-normalised) code. -/
def ratesLookup (code : String) : Option ℚ :=
  ((rates.find? (fun kv => kv.1 == code)).map (fun kv => kv.2))

/-- `TEDDataCollector.convert_to_eur` (bot.py:156-160) on a string currency
code: the amount unchanged for an empty or `"EUR"` code, otherwise the amount
times `self.rates.get(currency.upper(), 1.0)`. -/
def convert_to_eur (amount : ℚ) (currency : String) : ℚ :=
  if currency = "" ∨ currency = "EUR" then amount
  else amount * (ratesLookup (pyUpper currency)).getD 1

/-- `convert_to_eur` together with the log events its body emits.  The body
(bot.py:156-160) consists of the two `return` statements only — it contains
no logging call — so the emitted event list is empty on both paths. -/
def convert_to_eur_events (amount : ℚ) (currency : String) : ℚ × List String :=
  if currency = "" ∨ currency = "EUR" then (amount, [])
  else (amount * (ratesLookup (pyUpper currency)).getD 1, [])

/-- `convert_to_eur` as invoked from the aggregation loop (bot.py:385), where
the currency argument is a raw notice `Value`: a falsy value takes the
`not currency` branch, a string goes through the string version, and
`.upper()` on any other truthy value raises `AttributeError`
(`Option.none`). -/
def convertToEurVal (amount : ℚ) (currency : Value) : Option ℚ :=
  match currency with
  | Value.str s => Option.some (convert_to_eur amount s)
  | c => if truthy c then Option.none else Option.some amount

/-- Model of the Python builtin `float` on a string: an optionally signed
plain decimal literal (the shape of TED monetary fields); any other string
raises `ValueError` (`Option.none`). -/
def parseFloatStr (s : String) : Option ℚ :=
  let t := s.trim
  let core := if t.startsWith "-" ∨ t.startsWith "+" then t.drop 1 else t
  let sign : ℚ := if t.startsWith "-" then -1 else 1
  match core.splitOn "." with
  | [ip] => (ip.toNat?).map (fun n => sign * (n : ℚ))
  | [ip, fp] =>
    if ip = "" ∧ fp = "" then Option.none
    else
      match (if ip = "" then Option.some 0 else ip.toNat?),
            (if fp = "" then Option.some 0 else fp.toNat?) with
      | Option.some a, Option.some b =>
        Option.some (sign * ((a : ℚ) + (b : ℚ) / ((10 : ℚ) ^ fp.length)))
      | _, _ => Option.none
  | _ => Option.none

/-- `float(tender_value)` (bot.py:384): a number is taken as is, a string is
parsed, and every other shape raises `TypeError` (`Option.none`). -/
def pyFloat : Value → Option ℚ
  | Value.num q => Option.some q
  | Value.str s => parseFloatStr s
  | _ => Option.none

/-- The per-lot record appended to `converted_lots` (bot.py:388-396). -/
structure ConvertedLot : Type where
  lot_id : Value
  winner_name : Value
  winner_country : Value
  winner_city : Value
  tender_value : ℚ
  tender_currency : Value
  eur_value : ℚ

/-- The `converted_lots.append({...})` record for one lot (bot.py:388-396). -/
def convertedOf (lot : Lot) (tender_float eur_value : ℚ) : ConvertedLot :=
  { lot_id := lot.lot_id, winner_name := lot.winner_name,
    winner_country := lot.winner_country, winner_city := lot.winner_city,
    tender_value := tender_float, tender_currency := lot.tender_currency,
    eur_value := eur_value }

/-- The `for lot in lots` aggregation loop (bot.py:378-398), carrying the
running `total_eur` and `converted_lots` accumulator.  A falsy tender value
skips the lot; a `float()` failure (`ValueError`/`TypeError`) is caught and
skips the lot; an `AttributeError` from `convert_to_eur` is not caught by
the inner `except` and aborts the whole notice (`Option.none`). -/
def processLotsFrom (total_eur : ℚ) (converted_lots : List ConvertedLot) :
    List Lot → Option (ℚ × List ConvertedLot)
  | [] => Option.some (total_eur, converted_lots)
  | lot :: rest =>
    if truthy lot.tender_value then
      match pyFloat lot.tender_value with
      | Option.none => processLotsFrom total_eur converted_lots rest
      | Option.some tender_float =>
        match convertToEurVal tender_float lot.tender_currency with
        | Option.none => Option.none
        | Option.some eur_value =>
          processLotsFrom (total_eur + eur_value)
            (converted_lots ++ [convertedOf lot tender_float eur_value]) rest
    else processLotsFrom total_eur converted_lots rest

/-- The aggregation loop started from `total_eur = 0`, `converted_lots = []`
(bot.py:375-376). -/
def processLots (lots : List Lot) : Option (ℚ × List ConvertedLot) :=
  processLotsFrom 0 [] lots

/-- `form_type == "result"` (bot.py:360): Python equality of a field value
with the string `"result"` — true only for that exact string. -/
def isResultForm : Value → Bool
  | Value.str s => s == "result"
  | _ => false

/-- The STEP-2 predicate of `filter_high_value_results` (bot.py:359-360),
named after the spec's `is_result_notice`. -/
def is_result_notice (notice : Notice) : Bool :=
  isResultForm (ngetD notice "form-type" (Value.str ""))

/-- `needle in hay` on lists of characters (structural model of the Python
substring test): `needle` occurs as a contiguous run inside `hay`. -/
def charsPrefixOf : List Char → List Char → Bool
  | [], _ => true
  | _ :: _, [] => false
  | a :: as, b :: bs => a == b && charsPrefixOf as bs

/-- Python `needle in hay` for strings: `needle` is a contiguous substring
of `hay` (the empty string is contained in everything). -/
def charsInfixOf (needle : List Char) : List Char → Bool
  | [] => charsPrefixOf needle []
  | b :: t => charsPrefixOf needle (b :: t) || charsInfixOf needle t

/-- Python `needle in hay` on strings. -/
def pySubstr (needle hay : String) : Bool := charsInfixOf needle.data hay.data

/-- Python `code in x` as used on `html_links` (bot.py:408): key membership
for a mapping, substring test for a string, element equality for a list, and
`TypeError` (`Option.none`) for every other shape. -/
def pyIn (code : String) : Value → Option Bool
  | Value.dict d => Option.some (dictLookup d code).isSome
  | Value.str s => Option.some (pySubstr code s)
  | Value.list vs =>
    Option.some (vs.any (fun v => match v with | Value.str t => t == code | _ => false))
  | _ => Option.none

/-- Python `x[code]` with a string key (bot.py:409): a mapping lookup;
indexing a non-mapping with a string raises `TypeError` (`Option.none`). -/
def pyGetItemStr : Value → String → Option Value
  | Value.dict d, code => dictLookup d code
  | _, _ => Option.none

/-- `links.get('html', {}) if isinstance(links, dict) else {}` applied to
`notice.get('links', {})` (bot.py:403-404). -/
def htmlLinksOf (notice : Notice) : Value :=
  match ngetD notice "links" (Value.dict []) with
  | Value.dict d => (dictLookup d "html").getD (Value.dict [])
  | _ => Value.dict []

/-- The language codes of the URL loop (bot.py:407). -/
def urlLangs : List String := ["ENG", "SWE", "DEU", "FRA", "SPA", "ITA", "NLD"]

/-- The URL extraction loop (bot.py:406-410): the first present language
entry, `"N/A"` when none matches, `Option.none` when the membership test or
indexing raises. -/
def urlLoop (html_links : Value) : List String → Option Value
  | [] => Option.some (Value.str "N/A")
  | code :: rest =>
    match pyIn code html_links with
    | Option.none => Option.none
    | Option.some true => pyGetItemStr html_links code
    | Option.some false => urlLoop html_links rest

/-- The buyer-country normalisation (bot.py:415-419): the first element of a
list when non-empty, `"N/A"` for an empty list, any other shape unchanged. -/
def buyerCountryOf : Value → Value
  | Value.list vs => vs.headD (Value.str "N/A")
  | v => v

/-- The record appended to `high_value` for a qualifying notice
(bot.py:424-435). -/
structure HighValue : Type where
  publication_number : Value
  publication_date : Value
  form_type : String
  buyer_name : Value
  buyer_country : Value
  buyer_city : Value
  title : Value
  url : Value
  total_eur : ℚ
  lots : List ConvertedLot

/-- Construction of the `high_value` record once the threshold check passed
(bot.py:401-435): URL, buyer and title extraction in program order, each of
which may raise (`Option.none`, caught by the per-notice `except`). -/
def buildHighValue (notice : Notice) (total_eur : ℚ)
    (converted_lots : List ConvertedLot) : Option HighValue :=
  (urlLoop (htmlLinksOf notice) urlLangs).bind (fun url =>
  (extract_from_dict_i18n (ngetD notice "buyer-name" (Value.str "N/A"))).bind (fun buyer_name =>
  (extract_from_dict_i18n (ngetD notice "buyer-city" (Value.str "N/A"))).bind (fun buyer_city =>
  (extract_from_dict_i18n (ngetD notice "notice-title" (Value.str "N/A"))).map (fun title =>
    { publication_number := ngetD notice "publication-number" (Value.str "N/A"),
      publication_date := ngetD notice "publication-date" (Value.str "N/A"),
      form_type := "result",
      buyer_name := buyer_name,
      buyer_country := buyerCountryOf (ngetD notice "buyer-country" (Value.str "N/A")),
      buyer_city := buyer_city,
      title := title,
      url := url,
      total_eur := total_eur,
      lots := converted_lots }))))

/-- The per-notice body of the STEP 3-4 loop of `filter_high_value_results`
(bot.py:368-441): run the matcher (a raised exception skips the notice),
skip an empty lot list, aggregate, and keep the notice only when
`total_eur >= min_value_eur`. -/
def processNotice (min_value_eur : ℚ) (notice : Notice) : Option HighValue :=
  match match_winners_to_lots notice with
  | Option.none => Option.none
  | Option.some lots =>
    if lots.isEmpty then Option.none
    else
      match processLots lots with
      | Option.none => Option.none
      | Option.some (total_eur, converted_lots) =>
        if total_eur ≥ min_value_eur then buildHighValue notice total_eur converted_lots
        else Option.none

/-- The default threshold `min_value_eur = 15_000_000` (bot.py:332). -/
def default_min_value_eur : ℚ := 15000000

/-- `TEDDataCollector.filter_high_value_results` (bot.py:332-446): keep the
notices whose form type is exactly `"result"`, then aggregate each one and
keep those meeting the threshold. -/
def filter_high_value_results (notices : List Notice) (min_value_eur : ℚ) : List HighValue :=
  (notices.filter (fun notice => isResultForm (ngetD notice "form-type" (Value.str "")))).filterMap
    (fun notice => processNotice min_value_eur notice)

/-- A notice whose only array-valued field is the estimated-value sequence
(length 3): lot identifiers and tender values are absent. -/
def C1n : Notice :=
  [("estimated-value-lot", Value.list [Value.num 1, Value.num 2, Value.num 3])]

/-- A notice with three lot identifiers and two winner names (a length
mismatch that is neither 1 nor the lot count). -/
def C2n : Notice :=
  [("identifier-lot",
    Value.list [Value.str "LOT-0001", Value.str "LOT-0002", Value.str "LOT-0003"]),
   ("winner-name", Value.list [Value.str "Alpha", Value.str "Beta"])]

/-- A notice with three lot identifiers, two winner names and two tender
currencies (both mismatched lengths). -/
def C2w : Notice :=
  [("identifier-lot", Value.list [Value.str "a", Value.str "b", Value.str "c"]),
   ("winner-name", Value.list [Value.str "Alpha", Value.str "Beta"]),
   ("tender-value-cur", Value.list [Value.str "USD", Value.str "SEK"])]

/-- A notice with three lot identifiers and a single scalar winner name. -/
def C3w : Notice :=
  [("identifier-lot", Value.list [Value.str "a", Value.str "b", Value.str "c"]),
   ("winner-name", Value.str "ACME")]

/-- A result notice whose only lot carries the tender value `0`. -/
def C6n : Notice :=
  [("form-type", Value.str "result"), ("tender-value", Value.num 0)]

/-- The single lot the matcher produces for `C6n`. -/
def C6wlot : Lot := mkLotAt C6n [] [] 0

/-- A result notice with two EUR lots of 10,000,000 and 6,000,000. -/
def C7n16 : Notice :=
  [("form-type", Value.str "result"),
   ("tender-value", Value.list [Value.num 10000000, Value.num 6000000])]

/-- A result notice with two EUR lots of 10,000,000 and 4,000,000. -/
def C7n14 : Notice :=
  [("form-type", Value.str "result"),
   ("tender-value", Value.list [Value.num 10000000, Value.num 4000000])]

/-- A result notice whose single lot totals exactly the default threshold. -/
def C7n15 : Notice :=
  [("form-type", Value.str "result"), ("tender-value", Value.num 15000000)]

/-- A sample notice used to instantiate the determinism theorem. -/
def C9n : Notice :=
  [("form-type", Value.str "result"),
   ("tender-value", Value.list [Value.num 20000000]),
   ("winner-name", Value.str "Sample Winner")]

/-- A lot whose tender value is the number `0`. -/
def C10wlot : Lot :=
  { lot_id := Value.str "LOT-1", estimated_value := Value.null,
    estimated_currency := Value.str "EUR", tender_value := Value.num 0,
    tender_currency := Value.str "EUR", winner_name := Value.str "N/A",
    winner_country := Value.str "N/A", winner_city := Value.str "N/A" }

/-- A successful matcher run decomposes into successful winner-name and
winner-city extractions followed by the per-lot loop. -/
theorem match_elim (notice : Notice) (lots : List Lot)
    (h : match_winners_to_lots notice = Option.some lots) :
    ∃ wn wc, winnerField (nget notice "winner-name") = Option.some wn ∧
      winnerField (nget notice "winner-city") = Option.some wc ∧
      lots = buildLots notice wn wc := by
  unfold match_winners_to_lots at h
  rw [Option.bind_eq_some] at h
  obtain ⟨wn, hwn, h⟩ := h
  rw [Option.map_eq_some'] at h
  obtain ⟨wc, hwc, h⟩ := h
  exact ⟨wn, wc, hwn, hwc, h.symm⟩

/-- The lot at position `i` of a successful matcher run is the loop body
record for `i`, and the number of lots is `num_lots`. -/
theorem match_lots_get (notice : Notice) (lots : List Lot) (wn wc : List Value)
    (hm : match_winners_to_lots notice = Option.some lots)
    (hwn : winnerField (nget notice "winner-name") = Option.some wn)
    (hwc : winnerField (nget notice "winner-city") = Option.some wc)
    (i : ℕ) (hi : i < lots.length) :
    lots.get ⟨i, hi⟩ = mkLotAt notice wn wc i ∧ lots.length = numLots notice := by
  obtain ⟨wn2, wc2, hwn2, hwc2, hb⟩ := match_elim notice lots hm
  rw [hwn2] at hwn
  rw [hwc2] at hwc
  obtain rfl : wn2 = wn := by injection hwn
  obtain rfl : wc2 = wc := by injection hwc
  subst hb
  constructor
  · simp [buildLots, List.get_eq_getElem, List.getElem_map, List.getElem_range]
  · simp [buildLots]

/-- Currency selection at an in-range position. -/
theorem pickCur_lt (xs : List Value) (i : ℕ) (h : i < xs.length) :
    pickCur xs i = xs.getD i Value.null := by
  simp [pickCur, h]

/-- Currency selection defaults to `"EUR"` out of range (length not 1). -/
theorem pickCur_ge (xs : List Value) (i : ℕ) (h : ¬ i < xs.length) (h1 : xs.length ≠ 1) :
    pickCur xs i = Value.str "EUR" := by
  simp [pickCur, h, h1]

/-- A length-one currency sequence is broadcast to every position. -/
theorem pickCur_one (xs : List Value) (i : ℕ) (h1 : xs.length = 1) :
    pickCur xs i = xs.getD 0 Value.null := by
  unfold pickCur
  by_cases h : i < xs.length
  · have hi0 : i = 0 := by omega
    subst hi0
    rw [if_pos h]
  · rw [if_neg h, if_pos h1]

/-- A winner sequence whose length is neither 1 nor `num_lots` yields the
`"N/A"` sentinel at every position. -/
theorem pickWinner_default (xs : List Value) (n i : ℕ)
    (h1 : xs.length ≠ 1) (hn : xs.length ≠ n) :
    pickWinner xs n i = Value.str "N/A" := by
  simp [pickWinner, h1, hn]

/-- A length-one winner sequence is broadcast to every position. -/
theorem pickWinner_one (xs : List Value) (n i : ℕ) (h1 : xs.length = 1) (hi : i < n) :
    pickWinner xs n i = xs.getD 0 Value.null := by
  unfold pickWinner
  by_cases hc : xs.length = n ∧ i < xs.length
  · have hi0 : i = 0 := by omega
    subst hi0
    rw [if_pos hc]
  · rw [if_neg hc, if_pos h1]

/-- A winner sequence whose length equals `num_lots` aligns one-to-one. -/
theorem pickWinner_aligned (xs : List Value) (n i : ℕ) (hn : xs.length = n) (hi : i < n) :
    pickWinner xs n i = xs.getD i Value.null := by
  have hc : xs.length = n ∧ i < xs.length := ⟨hn, by omega⟩
  unfold pickWinner
  rw [if_pos hc]

/-- The per-notice processing reduces to a threshold test once the matcher
and the aggregation loop results are known. -/
theorem processNotice_cases (minV : ℚ) (notice : Notice) (lots : List Lot) (total : ℚ)
    (cl : List ConvertedLot)
    (hm : match_winners_to_lots notice = Option.some lots)
    (hne : lots.isEmpty = false)
    (hp : processLots lots = Option.some (total, cl)) :
    processNotice minV notice
      = if total ≥ minV then buildHighValue notice total cl else Option.none := by
  unfold processNotice
  rw [hm]
  dsimp only
  rw [hne, hp]
  simp

/-- The preferred-language loop finds `lang` when every earlier preferred
language is absent or falsy and `lang` itself is present and truthy. -/
theorem findLang_append (d : List (String × Value)) (pre : List String) (lang : String)
    (post : List String) (val : Value)
    (hpre : pre.all (fun l => match dictLookup d l with
      | Option.some w => !(truthy w)
      | Option.none => true) = true)
    (hlook : dictLookup d lang = Option.some val) (ht : truthy val = true) :
    findLang d (pre ++ lang :: post) = Option.some val := by
  induction pre with
  | nil =>
    simp only [List.nil_append, findLang, hlook, ht]
    rfl
  | cons a as ih =>
    simp only [List.all_cons, Bool.and_eq_true] at hpre
    obtain ⟨ha, has⟩ := hpre
    simp only [List.cons_append, findLang]
    cases hd : dictLookup d a with
    | none => exact ih has
    | some w =>
      rw [hd] at ha
      simp at ha
      simp only [ha, Bool.false_eq_true, if_false]
      exact ih has

/-- Unfolding of `extract_from_dict` on a mapping. -/
theorem extract_dict_eq (d : List (String × Value)) :
    extract_from_dict (Value.dict d)
      = (match findLang d matcherLangs with
         | Option.some val => unwrapFirst val
         | Option.none =>
           match d with
           | [] => Option.some Value.null
           | kv :: _ => unwrapFirst kv.2) := rfl

/-- C1 (counterexample): on a notice whose only array is a length-3
estimated-value sequence, the matcher produces 1 lot record, not the
max(1, 0, 3, 0) = 3 the claim predicts — the estimated-value sequence does
not enter the lot count. -/
theorem matcher_lot_count_cex :
    (match_winners_to_lots C1n).map List.length = Option.some 1
    ∧ (estValuesOf C1n).length = 3 := ⟨rfl, rfl⟩

/-- C1 (amended): every successful run of the Lot/Winner Matcher produces
exactly max(1, length of the lot-identifier sequence, length of the
tender-value sequence) LotRecords — the estimated-value sequence plays no
role in the count — and hence always at least one record. -/
theorem matcher_lot_count (notice : Notice) (lots : List Lot)
    (h : match_winners_to_lots notice = Option.some lots) :
    lots.length
      = max (max (lotIdsOf notice).length (tenderValuesOf notice).length) 1
    ∧ 1 ≤ lots.length := by
  obtain ⟨wn, wc, hwn, hwc, hb⟩ := match_elim notice lots h
  subst hb
  have hl : (buildLots notice wn wc).length = numLots notice := by simp [buildLots]
  rw [hl]
  unfold numLots
  omega

/-- C1 (witness): the amended count theorem instantiated at the empty
notice, which yields exactly one lot record. -/
theorem matcher_lot_count_witness :
    [mkLotAt ([] : Notice) [] [] 0].length
        = max (max (lotIdsOf ([] : Notice)).length (tenderValuesOf ([] : Notice)).length) 1
    ∧ 1 ≤ [mkLotAt ([] : Notice) [] [] 0].length :=
  matcher_lot_count [] [mkLotAt [] [] [] 0] rfl

/-- C2 (counterexample): with three lot identifiers and two winner names
(length neither 1 nor the lot count of 3), the matcher assigns the `"N/A"`
sentinel at every position — including position 0, which is in range of the
winner-name sequence — instead of the claimed in-range value `"Alpha"`. -/
theorem mismatch_alignment_cex :
    (match_winners_to_lots C2n).map (fun lots => lots.map Lot.winner_name)
      = Option.some [Value.str "N/A", Value.str "N/A", Value.str "N/A"]
    ∧ winnerField (nget C2n "winner-name")
      = Option.some [Value.str "Alpha", Value.str "Beta"]
    ∧ (match_winners_to_lots C2n).map List.length = Option.some 3 := ⟨rfl, rfl, rfl⟩

/-- C2 (amended): on a mismatched length (neither 1 nor the lot count) the
two currency fields take the sequence value at `i` when in range and the
`"EUR"` default otherwise, while the three winner fields (name, country,
city) take the `"N/A"` sentinel at every position, in range or not. -/
theorem mismatch_alignment (notice : Notice) (lots : List Lot) (wn wc : List Value) (i : ℕ)
    (hm : match_winners_to_lots notice = Option.some lots)
    (hwn : winnerField (nget notice "winner-name") = Option.some wn)
    (hwc : winnerField (nget notice "winner-city") = Option.some wc)
    (hi : i < lots.length) :
    ((tenderCursOf notice).length ≠ 1 →
      (lots.get ⟨i, hi⟩).tender_currency =
        if i < (tenderCursOf notice).length then (tenderCursOf notice).getD i Value.null
        else Value.str "EUR")
    ∧ ((estCursOf notice).length ≠ 1 →
      (lots.get ⟨i, hi⟩).estimated_currency =
        if i < (estCursOf notice).length then (estCursOf notice).getD i Value.null
        else Value.str "EUR")
    ∧ (wn.length ≠ 1 → wn.length ≠ lots.length →
      (lots.get ⟨i, hi⟩).winner_name = Value.str "N/A")
    ∧ ((countriesOf notice).length ≠ 1 → (countriesOf notice).length ≠ lots.length →
      (lots.get ⟨i, hi⟩).winner_country = Value.str "N/A")
    ∧ (wc.length ≠ 1 → wc.length ≠ lots.length →
      (lots.get ⟨i, hi⟩).winner_city = Value.str "N/A") := by
  obtain ⟨hg, hl⟩ := match_lots_get notice lots wn wc hm hwn hwc i hi
  rw [hg]
  unfold mkLotAt
  dsimp only
  refine ⟨?_, ?_, ?_, ?_, ?_⟩
  · intro h1
    by_cases hlt : i < (tenderCursOf notice).length
    · rw [pickCur_lt _ _ hlt, if_pos hlt]
    · rw [pickCur_ge _ _ hlt h1, if_neg hlt]
  · intro h1
    by_cases hlt : i < (estCursOf notice).length
    · rw [pickCur_lt _ _ hlt, if_pos hlt]
    · rw [pickCur_ge _ _ hlt h1, if_neg hlt]
  · intro h1 hn
    exact pickWinner_default _ _ _ h1 (by rw [← hl]; exact hn)
  · intro h1 hn
    exact pickWinner_default _ _ _ h1 (by rw [← hl]; exact hn)
  · intro h1 hn
    exact pickWinner_default _ _ _ h1 (by rw [← hl]; exact hn)

/-- C2 (witness): the amended alignment theorem instantiated at a notice
with three lot identifiers, two winner names and two tender currencies,
at position 0: the currency aligns positionally while the winner name is
the `"N/A"` sentinel. -/
theorem mismatch_alignment_witness :
    ((buildLots C2w [Value.str "Alpha", Value.str "Beta"] []).get ⟨0, by decide⟩).winner_name
        = Value.str "N/A"
    ∧ ((buildLots C2w [Value.str "Alpha", Value.str "Beta"] []).get
        ⟨0, by decide⟩).tender_currency = Value.str "USD" := by
  have h := mismatch_alignment C2w (buildLots C2w [Value.str "Alpha", Value.str "Beta"] [])
      [Value.str "Alpha", Value.str "Beta"] [] 0 rfl rfl rfl (by decide)
  refine ⟨h.2.2.1 (by decide) (by decide), ?_⟩
  have h2 := h.1 (by decide)
  rw [if_pos (by decide : (0 : ℕ) < (tenderCursOf C2w).length)] at h2
  exact h2

/-- C3: a field sequence of length exactly 1 is broadcast to every lot
record, and one whose length equals the lot count aligns one-to-one, for
each of the winner-name, winner-country, winner-city, tender-currency and
estimated-currency fields. -/
theorem broadcast_alignment (notice : Notice) (lots : List Lot) (wn wc : List Value) (i : ℕ)
    (hm : match_winners_to_lots notice = Option.some lots)
    (hwn : winnerField (nget notice "winner-name") = Option.some wn)
    (hwc : winnerField (nget notice "winner-city") = Option.some wc)
    (hi : i < lots.length) :
    (wn.length = 1 → (lots.get ⟨i, hi⟩).winner_name = wn.getD 0 Value.null)
    ∧ (wn.length = lots.length → (lots.get ⟨i, hi⟩).winner_name = wn.getD i Value.null)
    ∧ ((countriesOf notice).length = 1 →
      (lots.get ⟨i, hi⟩).winner_country = (countriesOf notice).getD 0 Value.null)
    ∧ ((countriesOf notice).length = lots.length →
      (lots.get ⟨i, hi⟩).winner_country = (countriesOf notice).getD i Value.null)
    ∧ (wc.length = 1 → (lots.get ⟨i, hi⟩).winner_city = wc.getD 0 Value.null)
    ∧ (wc.length = lots.length → (lots.get ⟨i, hi⟩).winner_city = wc.getD i Value.null)
    ∧ ((tenderCursOf notice).length = 1 →
      (lots.get ⟨i, hi⟩).tender_currency = (tenderCursOf notice).getD 0 Value.null)
    ∧ ((tenderCursOf notice).length = lots.length →
      (lots.get ⟨i, hi⟩).tender_currency = (tenderCursOf notice).getD i Value.null)
    ∧ ((estCursOf notice).length = 1 →
      (lots.get ⟨i, hi⟩).estimated_currency = (estCursOf notice).getD 0 Value.null)
    ∧ ((estCursOf notice).length = lots.length →
      (lots.get ⟨i, hi⟩).estimated_currency = (estCursOf notice).getD i Value.null) := by
  obtain ⟨hg, hl⟩ := match_lots_get notice lots wn wc hm hwn hwc i hi
  have hin : i < numLots notice := by rw [← hl]; exact hi
  rw [hg]
  unfold mkLotAt
  dsimp only
  refine ⟨?_, ?_, ?_, ?_, ?_, ?_, ?_, ?_, ?_, ?_⟩
  · intro h1
    exact pickWinner_one _ _ _ h1 hin
  · intro h1
    exact pickWinner_aligned _ _ _ (by rw [h1, hl]) hin
  · intro h1
    exact pickWinner_one _ _ _ h1 hin
  · intro h1
    exact pickWinner_aligned _ _ _ (by rw [h1, hl]) hin
  · intro h1
    exact pickWinner_one _ _ _ h1 hin
  · intro h1
    exact pickWinner_aligned _ _ _ (by rw [h1, hl]) hin
  · intro h1
    exact pickCur_one _ _ h1
  · intro h1
    exact pickCur_lt _ _ (by rw [h1, hl]; exact hin)
  · intro h1
    exact pickCur_one _ _ h1
  · intro h1
    exact pickCur_lt _ _ (by rw [h1, hl]; exact hin)

/-- C3 (witness): with three lot identifiers and a single winner name, the
record at position 2 carries the broadcast winner name. -/
theorem broadcast_alignment_witness :
    ((buildLots C3w [Value.str "ACME"] []).get ⟨2, by decide⟩).winner_name
      = Value.str "ACME" := by
  have h := broadcast_alignment C3w (buildLots C3w [Value.str "ACME"] [])
      [Value.str "ACME"] [] 2 rfl rfl rfl (by decide)
  exact h.1 rfl

/-- C4 (counterexample): the filter uses exact equality with `"result"`, so
the form type `"contract-result-notice"` — which does contain the substring
`"result"` — is rejected, contradicting the claimed substring policy. -/
theorem result_filter_exact_cex :
    is_result_notice [("form-type", Value.str "contract-result-notice")] = false
    ∧ pySubstr "result" "contract-result-notice" = true := ⟨rfl, rfl⟩

/-- C4 (amended): `is_result_notice` holds iff the form-type field equals
the string `"result"` exactly; `"result"` passes, while `"planning"` and
`"contract-result-notice"` do not; the pipeline's step-2 filter is exactly
this predicate. -/
theorem result_filter_exact :
    (∀ notice : Notice, is_result_notice notice = true
        ↔ ngetD notice "form-type" (Value.str "") = Value.str "result")
    ∧ is_result_notice [("form-type", Value.str "result")] = true
    ∧ is_result_notice [("form-type", Value.str "planning")] = false
    ∧ is_result_notice [("form-type", Value.str "contract-result-notice")] = false
    ∧ ∀ (notices : List Notice) (minV : ℚ), filter_high_value_results notices minV
        = (notices.filter is_result_notice).filterMap (fun n => processNotice minV n) := by
  refine ⟨?_, rfl, rfl, rfl, fun _ _ => rfl⟩
  intro notice
  unfold is_result_notice isResultForm
  rcases hv : ngetD notice "form-type" (Value.str "") with _ | s | q | vs | d <;> simp

/-- C4 (witness): the amended filter theorem instantiated at the exact
form type `"result"`. -/
theorem result_filter_exact_witness :
    is_result_notice [("form-type", Value.str "result")] = true :=
  result_filter_exact.2.1

/-- C5 (counterexample): for the unknown code `"XXX"` the converter returns
the amount unchanged but its body emits no diagnostic event at all — the
claimed warning does not exist in the code. -/
theorem convert_static_table_cex :
    convert_to_eur_events 100 "XXX" = (100, [])
    ∧ ratesLookup (pyUpper "XXX") = Option.none := by
  constructor
  · unfold convert_to_eur_events
    rw [if_neg (by simp)]
    rw [show ratesLookup (pyUpper "XXX") = Option.none from rfl]
    norm_num
  · rfl

/-- C5 (amended): `convert_to_eur` returns the amount unchanged for an empty
or `"EUR"` code, multiplies by the table rate for a known case-normalised
code (so converting 100 USD yields 92), and for an unknown code returns the
amount unchanged while emitting no warning (the lookup silently defaults
to a rate of 1.0). -/
theorem convert_static_table (amount : ℚ) (currency : String) :
    (currency = "" ∨ currency = "EUR" → convert_to_eur amount currency = amount)
    ∧ (∀ r : ℚ, ratesLookup (pyUpper currency) = Option.some r →
        currency ≠ "" → currency ≠ "EUR" →
        convert_to_eur amount currency = amount * r)
    ∧ (ratesLookup (pyUpper currency) = Option.none →
        convert_to_eur amount currency = amount
        ∧ (convert_to_eur_events amount currency).2 = [])
    ∧ convert_to_eur 100 "USD" = 92 := by
  refine ⟨?_, ?_, ?_, ?_⟩
  · intro h
    unfold convert_to_eur
    rw [if_pos h]
  · intro r hr h1 h2
    unfold convert_to_eur
    rw [if_neg (by simp [h1, h2]), hr]
    rfl
  · intro hr
    constructor
    · unfold convert_to_eur
      by_cases h : currency = "" ∨ currency = "EUR"
      · rw [if_pos h]
      · rw [if_neg h, hr]
        simp
    · unfold convert_to_eur_events
      by_cases h : currency = "" ∨ currency = "EUR"
      · rw [if_pos h]
      · rw [if_neg h]
  · have h : convert_to_eur 100 "USD" = 100 * (92 / 100) := rfl
    rw [h]
    norm_num

/-- C5 (witness): the conversion theorem instantiated at the reference code
`"EUR"` and at the unknown code `"XXX"`. -/
theorem convert_static_table_witness :
    convert_to_eur 100 "EUR" = 100
    ∧ convert_to_eur 100 "XXX" = 100 ∧ (convert_to_eur_events 100 "XXX").2 = [] :=
  ⟨(convert_static_table 100 "EUR").1 (Or.inr rfl),
   (convert_static_table 100 "XXX").2.2.1 rfl⟩

/-- C6 (counterexample): a result notice whose single lot has the non-`None`
tender value `0` is neither summed nor emitted — `processLots` yields total
0 and an empty converted-lot list, contradicting the claim that every lot
with a non-`None` tender value is accumulated and appended. -/
theorem aggregate_truthy_lots_cex :
    match_winners_to_lots C6n = Option.some [C6wlot]
    ∧ C6wlot.tender_value = Value.num 0
    ∧ Value.num 0 ≠ Value.null
    ∧ processLots [C6wlot] = Option.some (0, []) := by
  refine ⟨rfl, rfl, ?_, rfl⟩
  intro h
  exact Value.noConfusion h

/-- C6 (amended): the aggregation loop accumulates and emits exactly the
lots whose tender value is truthy and parses as a number (an unparseable
truthy value is skipped by the inner exception handler, and a failed
case-normalisation of the currency aborts the notice); every lot with a
falsy tender value — `None`, `0`, the empty string — is skipped; a notice
whose single lot has a `None` tender value aggregates to total 0 and yields
no HighValueNotice rather than raising. -/
theorem aggregate_truthy_lots :
    (∀ (total : ℚ) (acc : List ConvertedLot) (lot : Lot) (rest : List Lot),
      truthy lot.tender_value = false →
      processLotsFrom total acc (lot :: rest) = processLotsFrom total acc rest)
    ∧ (∀ (total : ℚ) (acc : List ConvertedLot) (lot : Lot) (rest : List Lot),
      truthy lot.tender_value = true → pyFloat lot.tender_value = Option.none →
      processLotsFrom total acc (lot :: rest) = processLotsFrom total acc rest)
    ∧ (∀ (total : ℚ) (acc : List ConvertedLot) (lot : Lot) (rest : List Lot) (tf eur : ℚ),
      truthy lot.tender_value = true → pyFloat lot.tender_value = Option.some tf →
      convertToEurVal tf lot.tender_currency = Option.some eur →
      processLotsFrom total acc (lot :: rest)
        = processLotsFrom (total + eur) (acc ++ [convertedOf lot tf eur]) rest)
    ∧ processLots (buildLots [("form-type", Value.str "result")] [] [])
        = Option.some (0, [])
    ∧ processNotice default_min_value_eur [("form-type", Value.str "result")]
        = Option.none := by
  refine ⟨?_, ?_, ?_, rfl, ?_⟩
  · intro total acc lot rest h
    simp [processLotsFrom, h]
  · intro total acc lot rest h hf
    simp [processLotsFrom, h, hf]
  · intro total acc lot rest tf eur h hf hc
    simp [processLotsFrom, h, hf, hc]
  · rw [processNotice_cases default_min_value_eur [("form-type", Value.str "result")]
        (buildLots [("form-type", Value.str "result")] [] []) 0 [] rfl rfl rfl]
    rw [if_neg (by norm_num [default_min_value_eur])]

/-- C6 (witness): the aggregation theorem applied to the concrete lot of
`C6n`, whose tender value `0` is falsy and therefore skipped. -/
theorem aggregate_truthy_lots_witness :
    processLotsFrom 0 [] [C6wlot] = processLotsFrom 0 [] [] :=
  aggregate_truthy_lots.1 0 [] C6wlot [] rfl

/-- C7: a result notice is retained iff its EUR total meets the default
threshold 15,000,000 inclusively; the 10M+6M example qualifies, the 10M+4M
example does not, and a notice totalling exactly 15,000,000 qualifies. -/
theorem threshold_inclusive (notice : Notice) (lots : List Lot) (total : ℚ)
    (cl : List ConvertedLot)
    (hm : match_winners_to_lots notice = Option.some lots)
    (hne : lots.isEmpty = false)
    (hp : processLots lots = Option.some (total, cl)) :
    (total ≥ default_min_value_eur →
      processNotice default_min_value_eur notice = buildHighValue notice total cl)
    ∧ (¬ total ≥ default_min_value_eur →
      processNotice default_min_value_eur notice = Option.none)
    ∧ default_min_value_eur = 15000000
    ∧ ((filter_high_value_results [C7n16] default_min_value_eur).map HighValue.total_eur
        = [0 + 10000000 + 6000000] ∧ (0 : ℚ) + 10000000 + 6000000 = 16000000)
    ∧ filter_high_value_results [C7n14] default_min_value_eur = []
    ∧ ((processNotice default_min_value_eur C7n15).map HighValue.total_eur
        = Option.some (0 + 15000000) ∧ (0 : ℚ) + 15000000 = 15000000) := by
  have hcases := processNotice_cases default_min_value_eur notice lots total cl hm hne hp
  refine ⟨?_, ?_, rfl, ?_, ?_, ?_⟩
  · intro hge
    rw [hcases, if_pos hge]
  · intro hlt
    rw [hcases, if_neg hlt]
  · have h16 : processNotice default_min_value_eur C7n16
        = buildHighValue C7n16 (0 + 10000000 + 6000000)
            [convertedOf (mkLotAt C7n16 [] [] 0) 10000000 10000000,
             convertedOf (mkLotAt C7n16 [] [] 1) 6000000 6000000] := by
      rw [processNotice_cases default_min_value_eur C7n16 (buildLots C7n16 [] [])
          (0 + 10000000 + 6000000)
          [convertedOf (mkLotAt C7n16 [] [] 0) 10000000 10000000,
           convertedOf (mkLotAt C7n16 [] [] 1) 6000000 6000000] rfl rfl rfl]
      rw [if_pos (by norm_num [default_min_value_eur])]
    constructor
    · simp only [filter_high_value_results, List.filter, List.filterMap]
      rw [h16]
      rfl
    · norm_num
  · have h14 : processNotice default_min_value_eur C7n14 = Option.none := by
      rw [processNotice_cases default_min_value_eur C7n14 (buildLots C7n14 [] [])
          (0 + 10000000 + 4000000)
          [convertedOf (mkLotAt C7n14 [] [] 0) 10000000 10000000,
           convertedOf (mkLotAt C7n14 [] [] 1) 4000000 4000000] rfl rfl rfl]
      rw [if_neg (by norm_num [default_min_value_eur])]
    simp only [filter_high_value_results, List.filter, List.filterMap]
    rw [h14]
  · have h15 : processNotice default_min_value_eur C7n15
        = buildHighValue C7n15 (0 + 15000000)
            [convertedOf (mkLotAt C7n15 [] [] 0) 15000000 15000000] := by
      rw [processNotice_cases default_min_value_eur C7n15 (buildLots C7n15 [] [])
          (0 + 15000000)
          [convertedOf (mkLotAt C7n15 [] [] 0) 15000000 15000000] rfl rfl rfl]
      rw [if_pos (by norm_num [default_min_value_eur])]
    constructor
    · rw [h15]
      rfl
    · norm_num

/-- C7 (witness): the threshold theorem instantiated at the boundary notice
`C7n15`, whose total is exactly the default threshold and which therefore
qualifies. -/
theorem threshold_inclusive_witness :
    processNotice default_min_value_eur C7n15
      = buildHighValue C7n15 (0 + 15000000)
          [convertedOf (mkLotAt C7n15 [] [] 0) 15000000 15000000] :=
  (threshold_inclusive C7n15 (buildLots C7n15 [] []) (0 + 15000000)
      [convertedOf (mkLotAt C7n15 [] [] 0) 15000000 15000000] rfl rfl rfl).1
    (by norm_num [default_min_value_eur])

/-- C8 (counterexample): on the mapping `{"xyz": []}` — no preferred
language present, first value an empty sequence — resolution raises an
`IndexError` (modelled `Option.none`) instead of returning a value, so
resolution is not total as claimed. -/
theorem resolve_localized_rules_cex :
    extract_from_dict (Value.dict [("xyz", Value.list [])]) = Option.none
    ∧ unwrapFirst (Value.list []) = Option.none := ⟨rfl, rfl⟩

/-- C8 (amended): `extract_from_dict` returns a non-mapping unchanged;
returns Python `None` (the unknown sentinel) for an empty mapping; returns
the first present truthy entry in preferred-language order, unwrapping a
sequence to its first element; and when no preferred language matches it
returns the mapping's first value unwrapped the same way — an unwrap that
fails (raises) exactly when that value is an empty sequence. -/
theorem resolve_localized_rules :
    (∀ s, extract_from_dict (Value.str s) = Option.some (Value.str s))
    ∧ (∀ q, extract_from_dict (Value.num q) = Option.some (Value.num q))
    ∧ (∀ vs, extract_from_dict (Value.list vs) = Option.some (Value.list vs))
    ∧ extract_from_dict Value.null = Option.some Value.null
    ∧ extract_from_dict (Value.dict []) = Option.some Value.null
    ∧ (∀ (d : List (String × Value)) (pre : List String) (lang : String)
        (post : List String) (val : Value),
        matcherLangs = pre ++ lang :: post →
        pre.all (fun l => match dictLookup d l with
          | Option.some w => !(truthy w)
          | Option.none => true) = true →
        dictLookup d lang = Option.some val → truthy val = true →
        extract_from_dict (Value.dict d) = unwrapFirst val)
    ∧ (∀ (d : List (String × Value)) (k : String) (v : Value)
        (rest : List (String × Value)),
        findLang d matcherLangs = Option.none → d = (k, v) :: rest →
        extract_from_dict (Value.dict d) = unwrapFirst v)
    ∧ (∀ (v : Value) (vs : List Value),
        unwrapFirst (Value.list (v :: vs)) = Option.some v) := by
  refine ⟨fun s => rfl, fun q => rfl, fun vs => rfl, rfl, rfl, ?_, ?_, fun v vs => rfl⟩
  · intro d pre lang post val hsplit hpre hlook ht
    rw [extract_dict_eq, hsplit, findLang_append d pre lang post val hpre hlook ht]
  · intro d k v rest hnone hd
    subst hd
    rw [extract_dict_eq, hnone]

/-- C8 (witness): the resolution theorem instantiated at the mapping
`{"fra": "bonjour"}`: the preferred languages before `"fra"` are absent, so
resolution returns `"bonjour"`. -/
theorem resolve_localized_rules_witness :
    extract_from_dict (Value.dict [("fra", Value.str "bonjour")])
      = Option.some (Value.str "bonjour") :=
  resolve_localized_rules.2.2.2.2.2.1 [("fra", Value.str "bonjour")]
    ["eng", "swe", "deu"] "fra" ["spa"] (Value.str "bonjour") rfl rfl rfl rfl

/-- C9: the filter/aggregation pipeline is a pure function of its input —
two runs on equal notice lists yield identical HighValueNotice lists
(the embedding reads no mutable state; `self.rates` is fixed at
construction). -/
theorem aggregate_deterministic (ns1 ns2 : List Notice) (minV : ℚ) (h : ns1 = ns2) :
    filter_high_value_results ns1 minV = filter_high_value_results ns2 minV := by
  rw [h]

/-- C9 (witness): determinism instantiated at a concrete notice list. -/
theorem aggregate_deterministic_witness :
    filter_high_value_results [C9n] default_min_value_eur
      = filter_high_value_results [C9n] default_min_value_eur :=
  aggregate_deterministic [C9n] [C9n] default_min_value_eur rfl

/-- C10: a lot whose tender value is falsy — the number 0, the empty
string, or any other falsy value — is treated by the aggregation loop
exactly like an absent (`None`) tender value: it changes neither the
running total nor the emitted converted-lot list. -/
theorem zero_tender_like_absent (total : ℚ) (acc : List ConvertedLot) (lot : Lot)
    (rest : List Lot) (h : truthy lot.tender_value = false) :
    processLotsFrom total acc (lot :: rest) = processLotsFrom total acc rest
    ∧ processLotsFrom total acc (lot :: rest)
        = processLotsFrom total acc ({ lot with tender_value := Value.null } :: rest)
    ∧ truthy (Value.num 0) = false ∧ truthy (Value.str "") = false := by
  have h1 : processLotsFrom total acc (lot :: rest) = processLotsFrom total acc rest := by
    simp [processLotsFrom, h]
  have h2 : processLotsFrom total acc ({ lot with tender_value := Value.null } :: rest)
      = processLotsFrom total acc rest := by
    simp [processLotsFrom, truthy]
  exact ⟨h1, h1.trans h2.symm, rfl, rfl⟩

/-- C10 (witness): the zero-skipping theorem applied to a concrete lot with
tender value 0, which is processed exactly like its `None`-valued copy. -/
theorem zero_tender_like_absent_witness :
    processLotsFrom 0 [] [C10wlot] = processLotsFrom 0 [] []
    ∧ processLotsFrom 0 [] [C10wlot]
        = processLotsFrom 0 [] [{ C10wlot with tender_value := Value.null }]
    ∧ truthy (Value.num 0) = false ∧ truthy (Value.str "") = false :=
  zero_tender_like_absent 0 [] C10wlot [] rfl

end TEDScan
